import Mathlib

/-!
Verification development for the Configuration Manager Object Model of
DynamicTablesPkg (StandardNameSpaceObjects.h): the Standard Namespace
object identifiers, the object token scheme, the record layouts and their
packed byte encoding, and the construction-time validation rules for
variable-length aggregate records.
-/

namespace CmObjectModel

/-! ## Byte-serialization helpers (little-endian, one `Nat` per byte) -/

/-- Serialize `n` into `w` little-endian bytes (each byte a `Nat < 256`). -/
def toBytes : Nat → Nat → List Nat
  | 0, _ => []
  | w + 1, n => n % 256 :: toBytes w (n / 256)

/-- Read a little-endian byte list back into a `Nat`. -/
def fromBytes : List Nat → Nat
  | [] => 0
  | b :: bs => b + 256 * fromBytes bs

/-! ## Tokens and the Standard Namespace object identifiers -/

/-- The object token type: `typedef UINTN CM_OBJECT_TOKEN` (an unsigned
machine word; its value is embedded as a `Nat`, the platform word width
enters only in the packed byte encoding). -/
abbrev CM_OBJECT_TOKEN := Nat

/-- A reserved zero/NULL token value that does not identify any object
(`#define CM_NULL_TOKEN 0`). -/
def CM_NULL_TOKEN : Nat := 0

/-- The maximum peer-group count for a system slot
(`#define MAX_SLOT_PEER_GROUP 0x05`). -/
def MAX_SLOT_PEER_GROUP : Nat := 0x05

/-- The `ESTD_OBJECT_ID` enum describing the Object IDs in the Standard
Namespace, with `EStdObjMax` as the range bound. -/
inductive ESTD_OBJECT_ID where
  | EStdObjCfgMgrInfo
  | EStdObjAcpiTableList
  | EStdObjSmbiosTableList
  | EStdObjIpmiDeviceInfo
  | EStdObjBaseboardInfo
  | EStdObjSystemSlotInfo
  | EStdObjMax
  deriving DecidableEq, Repr

/-- Numeric value of each enumerator: the C enum starts at `0x00000000`
and assigns consecutive values. -/
def ESTD_OBJECT_ID.toNat : ESTD_OBJECT_ID → Nat
  | .EStdObjCfgMgrInfo => 0
  | .EStdObjAcpiTableList => 1
  | .EStdObjSmbiosTableList => 2
  | .EStdObjIpmiDeviceInfo => 3
  | .EStdObjBaseboardInfo => 4
  | .EStdObjSystemSlotInfo => 5
  | .EStdObjMax => 6

/-- The concrete (declared) Object IDs of the Standard Namespace, in
declaration order; `EStdObjMax` is the bound, not a declared ID. -/
def stdDeclaredObjectIds : List ESTD_OBJECT_ID :=
  [.EStdObjCfgMgrInfo, .EStdObjAcpiTableList, .EStdObjSmbiosTableList,
   .EStdObjIpmiDeviceInfo, .EStdObjBaseboardInfo, .EStdObjSystemSlotInfo]

/-! ## Table-generator identifiers

`ACPI_TABLE_GENERATOR_ID` and `SMBIOS_TABLE_GENERATOR_ID` come from
`AcpiTableGenerator.h` / `SmbiosTableGenerator.h`, which are outside the
material shown; they are modelled from the spec below. -/

/-- Kinds of table generators: ACPI-style and SMBIOS-style. -/
inductive TABLE_TYPE where
  | acpi
  | smbios
  deriving DecidableEq, Repr

def TABLE_TYPE.toNat : TABLE_TYPE → Nat
  | .acpi => 0
  | .smbios => 1

/-- Modelled from the spec: the "type-safe generator-ID" used to identify
an ACPI table generator (the spec's Table-Request record "identifies a
generator (by type-safe generator-ID)"); the numeric payload identifies
the generator, and the ACPI table-type tag is part of the type itself. -/
structure ACPI_TABLE_GENERATOR_ID where
  TableId : Nat
  deriving DecidableEq, Repr

/-- Modelled from the spec: the type-safe generator-ID used to identify an
SMBIOS table generator. -/
structure SMBIOS_TABLE_GENERATOR_ID where
  TableId : Nat
  deriving DecidableEq, Repr

def ACPI_TABLE_GENERATOR_ID.tableType (_ : ACPI_TABLE_GENERATOR_ID) :
    TABLE_TYPE := .acpi

def SMBIOS_TABLE_GENERATOR_ID.tableType (_ : SMBIOS_TABLE_GENERATOR_ID) :
    TABLE_TYPE := .smbios

/-- Modelled from the spec: the 32-bit numeric form of an ACPI generator
ID, carrying the table-type tag in the bit-field above bit 28. -/
def encodeAcpiGid (g : ACPI_TABLE_GENERATOR_ID) : Nat :=
  g.TableId + 2 ^ 28 * TABLE_TYPE.acpi.toNat

/-- Modelled from the spec: the 32-bit numeric form of an SMBIOS generator
ID, carrying the table-type tag in the bit-field above bit 28. -/
def encodeSmbiosGid (g : SMBIOS_TABLE_GENERATOR_ID) : Nat :=
  g.TableId + 2 ^ 28 * TABLE_TYPE.smbios.toNat

/-- Table type carried by the numeric form of a generator ID. -/
def gidTableType (n : Nat) : TABLE_TYPE :=
  if n / 2 ^ 28 % 16 = 1 then .smbios else .acpi

def decodeAcpiGid (n : Nat) : ACPI_TABLE_GENERATOR_ID :=
  ⟨n % 2 ^ 28⟩

def decodeSmbiosGid (n : Nat) : SMBIOS_TABLE_GENERATOR_ID :=
  ⟨n % 2 ^ 28⟩

/-! ## Record types of the Standard Namespace

Each structure mirrors one `typedef struct` of the header, field for
field and in declaration order.  `CHAR8 *` / table-data pointer fields
are machine words holding an address (`NULL` = 0), embedded as `Nat`;
the platform word width enters in the byte encoding. -/

/-- Record `CM_STD_OBJ_CONFIGURATION_MANAGER_INFO`: `UINT32 Revision;
UINT8 OemId[6];`. -/
structure CM_STD_OBJ_CONFIGURATION_MANAGER_INFO where
  Revision : Nat
  OemId : List Nat
  deriving DecidableEq, Repr

/-- Record `CM_STD_OBJ_ACPI_TABLE_INFO`: signature, revision, generator ID,
optional table-data pointer, OEM table ID, OEM revision, minor
revision. -/
structure CM_STD_OBJ_ACPI_TABLE_INFO where
  AcpiTableSignature : Nat
  AcpiTableRevision : Nat
  TableGeneratorId : ACPI_TABLE_GENERATOR_ID
  AcpiTableData : Nat
  OemTableId : Nat
  OemRevision : Nat
  MinorRevision : Nat
  deriving DecidableEq, Repr

/-- Record `CM_STD_OBJ_SMBIOS_TABLE_INFO`: generator ID plus optional
structure-data pointer. -/
structure CM_STD_OBJ_SMBIOS_TABLE_INFO where
  TableGeneratorId : SMBIOS_TABLE_GENERATOR_ID
  SmbiosTableData : Nat
  deriving DecidableEq, Repr

/-- Record `CM_STD_IPMI_DEVICE_INFO`. -/
structure CM_STD_IPMI_DEVICE_INFO where
  IpmiIntfType : Nat
  IpmiSpecRevision : Nat
  IpmiI2CSlaveAddress : Nat
  IpmiNVStorageDevAddress : Nat
  IpmiBaseAddress : Nat
  IpmiBaseAddModIntInfo : Nat
  IpmiInterruptNum : Nat
  IpmiUid : Nat
  IpmiDeviceInfoToken : CM_OBJECT_TOKEN
  deriving DecidableEq, Repr

/-- Record `CONTAINED_CM_OBJECTS`: a (token, SMBIOS generator ID) pair embedded
in the baseboard record. -/
structure CONTAINED_CM_OBJECTS where
  CmObjToken : CM_OBJECT_TOKEN
  GeneratorId : SMBIOS_TABLE_GENERATOR_ID
  deriving DecidableEq, Repr

/-- Record `CM_STD_BASEBOARD_INFO`; the trailing array
`CONTAINED_CM_OBJECTS ContainedCmObjects[1]` is a capacity-1 storage
array, embedded as a list whose well-formed length is 1. -/
structure CM_STD_BASEBOARD_INFO where
  BaseboardInfoToken : CM_OBJECT_TOKEN
  ChassisToken : CM_OBJECT_TOKEN
  Manufacturer : Nat
  ProductName : Nat
  Version : Nat
  SerialNumber : Nat
  AssetTag : Nat
  FeatureFlag : Nat
  LocationInChassis : Nat
  BoardType : Nat
  NumberOfContainedObjectHandles : Nat
  ContainedCmObjects : List CONTAINED_CM_OBJECTS
  deriving DecidableEq, Repr

/-- Modelled from the spec: `MISC_SLOT_PEER_GROUP` (from the SMBIOS
industry-standard header, outside the shown material) — the "Peer
(S/B/D/F/Width)" descriptor: segment group, bus, device/function, data
bus width. -/
structure MISC_SLOT_PEER_GROUP where
  SegmentGroupNum : Nat
  BusNum : Nat
  DevFuncNum : Nat
  DataBusWidth : Nat
  deriving DecidableEq, Repr

/-- Record `CM_STD_SYSTEM_SLOTS_INFO`; `PeerGroups[MAX_SLOT_PEER_GROUP]` is a
capacity-5 storage array, embedded as a list whose well-formed length is
`MAX_SLOT_PEER_GROUP`. -/
structure CM_STD_SYSTEM_SLOTS_INFO where
  SystemSlotInfoToken : CM_OBJECT_TOKEN
  SlotDesignation : Nat
  SlotType : Nat
  SlotDataBusWidth : Nat
  CurrentUsage : Nat
  SlotLength : Nat
  SlotID : Nat
  SlotCharacteristics1 : Nat
  SlotCharacteristics2 : Nat
  SegmentGroupNum : Nat
  BusNum : Nat
  DevFuncNum : Nat
  DataBusWidth : Nat
  SlotInformation : Nat
  SlotPhysicalWidth : Nat
  SlotPitch : Nat
  SlotHeight : Nat
  PeerGroupingCount : Nat
  PeerGroups : List MISC_SLOT_PEER_GROUP
  deriving DecidableEq, Repr

/-- Storage capacity of the baseboard's trailing
`ContainedCmObjects[1]` array. -/
def baseboardContainedObjectsCapacity : Nat := 1

/-! ## Well-formedness: every field fits its declared C width

`W` is the platform word width in bytes (4 on 32-bit, 8 on 64-bit),
giving the width of `UINTN` tokens and of pointer fields. -/

abbrev CM_STD_OBJ_CONFIGURATION_MANAGER_INFO.WF
    (r : CM_STD_OBJ_CONFIGURATION_MANAGER_INFO) : Prop :=
  r.Revision < 256 ^ 4 ∧ r.OemId.length = 6 ∧ ∀ b ∈ r.OemId, b < 256

abbrev CM_STD_OBJ_ACPI_TABLE_INFO.WF (W : Nat)
    (r : CM_STD_OBJ_ACPI_TABLE_INFO) : Prop :=
  r.AcpiTableSignature < 256 ^ 4 ∧ r.AcpiTableRevision < 256
    ∧ r.TableGeneratorId.TableId < 2 ^ 28 ∧ r.AcpiTableData < 256 ^ W
    ∧ r.OemTableId < 256 ^ 8 ∧ r.OemRevision < 256 ^ 4
    ∧ r.MinorRevision < 256

abbrev CM_STD_OBJ_SMBIOS_TABLE_INFO.WF (W : Nat)
    (r : CM_STD_OBJ_SMBIOS_TABLE_INFO) : Prop :=
  r.TableGeneratorId.TableId < 2 ^ 28 ∧ r.SmbiosTableData < 256 ^ W

abbrev CM_STD_IPMI_DEVICE_INFO.WF (W : Nat)
    (r : CM_STD_IPMI_DEVICE_INFO) : Prop :=
  r.IpmiIntfType < 256 ∧ r.IpmiSpecRevision < 256
    ∧ r.IpmiI2CSlaveAddress < 256 ∧ r.IpmiNVStorageDevAddress < 256
    ∧ r.IpmiBaseAddress < 256 ^ 8 ∧ r.IpmiBaseAddModIntInfo < 256
    ∧ r.IpmiInterruptNum < 256 ∧ r.IpmiUid < 256 ^ 4
    ∧ r.IpmiDeviceInfoToken < 256 ^ W

abbrev CONTAINED_CM_OBJECTS.WF (W : Nat) (c : CONTAINED_CM_OBJECTS) : Prop :=
  c.CmObjToken < 256 ^ W ∧ c.GeneratorId.TableId < 2 ^ 28

abbrev CM_STD_BASEBOARD_INFO.WF (W : Nat) (r : CM_STD_BASEBOARD_INFO) : Prop :=
  r.BaseboardInfoToken < 256 ^ W ∧ r.ChassisToken < 256 ^ W
    ∧ r.Manufacturer < 256 ^ W ∧ r.ProductName < 256 ^ W
    ∧ r.Version < 256 ^ W ∧ r.SerialNumber < 256 ^ W
    ∧ r.AssetTag < 256 ^ W ∧ r.FeatureFlag < 256
    ∧ r.LocationInChassis < 256 ^ W ∧ r.BoardType < 256
    ∧ r.NumberOfContainedObjectHandles < 256
    ∧ r.ContainedCmObjects.length = baseboardContainedObjectsCapacity
    ∧ ∀ c ∈ r.ContainedCmObjects, c.WF W

abbrev MISC_SLOT_PEER_GROUP.WF (p : MISC_SLOT_PEER_GROUP) : Prop :=
  p.SegmentGroupNum < 256 ^ 2 ∧ p.BusNum < 256 ∧ p.DevFuncNum < 256
    ∧ p.DataBusWidth < 256

abbrev CM_STD_SYSTEM_SLOTS_INFO.WF (W : Nat)
    (r : CM_STD_SYSTEM_SLOTS_INFO) : Prop :=
  r.SystemSlotInfoToken < 256 ^ W ∧ r.SlotDesignation < 256 ^ W
    ∧ r.SlotType < 256 ∧ r.SlotDataBusWidth < 256
    ∧ r.CurrentUsage < 256 ∧ r.SlotLength < 256
    ∧ r.SlotID < 256 ^ 2 ∧ r.SlotCharacteristics1 < 256
    ∧ r.SlotCharacteristics2 < 256 ∧ r.SegmentGroupNum < 256 ^ 2
    ∧ r.BusNum < 256 ∧ r.DevFuncNum < 256 ∧ r.DataBusWidth < 256
    ∧ r.SlotInformation < 256 ∧ r.SlotPhysicalWidth < 256
    ∧ r.SlotPitch < 256 ^ 2 ∧ r.SlotHeight < 256
    ∧ r.PeerGroupingCount < 256
    ∧ r.PeerGroups.length = MAX_SLOT_PEER_GROUP
    ∧ ∀ p ∈ r.PeerGroups, p.WF

/-! ## Packed byte encoding (`#pragma pack(1)`)

Records are serialized field after field in declaration order with no
inter-field padding; each field contributes exactly its declared C width
in bytes. -/

def encodeCfgMgrInfo (r : CM_STD_OBJ_CONFIGURATION_MANAGER_INFO) :
    List Nat :=
  toBytes 4 r.Revision ++ r.OemId

def encodeAcpiTableInfo (W : Nat) (r : CM_STD_OBJ_ACPI_TABLE_INFO) :
    List Nat :=
  toBytes 4 r.AcpiTableSignature ++ toBytes 1 r.AcpiTableRevision
    ++ toBytes 4 (encodeAcpiGid r.TableGeneratorId)
    ++ toBytes W r.AcpiTableData ++ toBytes 8 r.OemTableId
    ++ toBytes 4 r.OemRevision ++ toBytes 1 r.MinorRevision

def encodeSmbiosTableInfo (W : Nat) (r : CM_STD_OBJ_SMBIOS_TABLE_INFO) :
    List Nat :=
  toBytes 4 (encodeSmbiosGid r.TableGeneratorId)
    ++ toBytes W r.SmbiosTableData

def encodeIpmiDeviceInfo (W : Nat) (r : CM_STD_IPMI_DEVICE_INFO) :
    List Nat :=
  toBytes 1 r.IpmiIntfType ++ toBytes 1 r.IpmiSpecRevision
    ++ toBytes 1 r.IpmiI2CSlaveAddress ++ toBytes 1 r.IpmiNVStorageDevAddress
    ++ toBytes 8 r.IpmiBaseAddress ++ toBytes 1 r.IpmiBaseAddModIntInfo
    ++ toBytes 1 r.IpmiInterruptNum ++ toBytes 4 r.IpmiUid
    ++ toBytes W r.IpmiDeviceInfoToken

def encodeContainedCmObject (W : Nat) (c : CONTAINED_CM_OBJECTS) :
    List Nat :=
  toBytes W c.CmObjToken ++ toBytes 4 (encodeSmbiosGid c.GeneratorId)

def encodeBaseboardInfo (W : Nat) (r : CM_STD_BASEBOARD_INFO) : List Nat :=
  toBytes W r.BaseboardInfoToken ++ toBytes W r.ChassisToken
    ++ toBytes W r.Manufacturer ++ toBytes W r.ProductName
    ++ toBytes W r.Version ++ toBytes W r.SerialNumber
    ++ toBytes W r.AssetTag ++ toBytes 1 r.FeatureFlag
    ++ toBytes W r.LocationInChassis ++ toBytes 1 r.BoardType
    ++ toBytes 1 r.NumberOfContainedObjectHandles
    ++ (r.ContainedCmObjects.map (encodeContainedCmObject W)).flatten

def encodePeerGroup (p : MISC_SLOT_PEER_GROUP) : List Nat :=
  toBytes 2 p.SegmentGroupNum ++ toBytes 1 p.BusNum
    ++ toBytes 1 p.DevFuncNum ++ toBytes 1 p.DataBusWidth

def encodeSystemSlotInfo (W : Nat) (r : CM_STD_SYSTEM_SLOTS_INFO) :
    List Nat :=
  toBytes W r.SystemSlotInfoToken ++ toBytes W r.SlotDesignation
    ++ toBytes 1 r.SlotType ++ toBytes 1 r.SlotDataBusWidth
    ++ toBytes 1 r.CurrentUsage ++ toBytes 1 r.SlotLength
    ++ toBytes 2 r.SlotID ++ toBytes 1 r.SlotCharacteristics1
    ++ toBytes 1 r.SlotCharacteristics2 ++ toBytes 2 r.SegmentGroupNum
    ++ toBytes 1 r.BusNum ++ toBytes 1 r.DevFuncNum
    ++ toBytes 1 r.DataBusWidth ++ toBytes 1 r.SlotInformation
    ++ toBytes 1 r.SlotPhysicalWidth ++ toBytes 2 r.SlotPitch
    ++ toBytes 1 r.SlotHeight ++ toBytes 1 r.PeerGroupingCount
    ++ (r.PeerGroups.map encodePeerGroup).flatten

/-! ## Decoding the packed byte layout back into records -/

def decodeCfgMgrInfo (bs : List Nat) :
    CM_STD_OBJ_CONFIGURATION_MANAGER_INFO :=
  { Revision := fromBytes (bs.take 4)
    OemId := (bs.drop 4).take 6 }

def decodeAcpiTableInfo (W : Nat) (bs : List Nat) :
    CM_STD_OBJ_ACPI_TABLE_INFO :=
  let t1 := bs.drop 4
  let t2 := t1.drop 1
  let t3 := t2.drop 4
  let t4 := t3.drop W
  let t5 := t4.drop 8
  let t6 := t5.drop 4
  { AcpiTableSignature := fromBytes (bs.take 4)
    AcpiTableRevision := fromBytes (t1.take 1)
    TableGeneratorId := decodeAcpiGid (fromBytes (t2.take 4))
    AcpiTableData := fromBytes (t3.take W)
    OemTableId := fromBytes (t4.take 8)
    OemRevision := fromBytes (t5.take 4)
    MinorRevision := fromBytes (t6.take 1) }

def decodeSmbiosTableInfo (W : Nat) (bs : List Nat) :
    CM_STD_OBJ_SMBIOS_TABLE_INFO :=
  { TableGeneratorId := decodeSmbiosGid (fromBytes (bs.take 4))
    SmbiosTableData := fromBytes ((bs.drop 4).take W) }

def decodeIpmiDeviceInfo (W : Nat) (bs : List Nat) :
    CM_STD_IPMI_DEVICE_INFO :=
  let t1 := bs.drop 1
  let t2 := t1.drop 1
  let t3 := t2.drop 1
  let t4 := t3.drop 1
  let t5 := t4.drop 8
  let t6 := t5.drop 1
  let t7 := t6.drop 1
  let t8 := t7.drop 4
  { IpmiIntfType := fromBytes (bs.take 1)
    IpmiSpecRevision := fromBytes (t1.take 1)
    IpmiI2CSlaveAddress := fromBytes (t2.take 1)
    IpmiNVStorageDevAddress := fromBytes (t3.take 1)
    IpmiBaseAddress := fromBytes (t4.take 8)
    IpmiBaseAddModIntInfo := fromBytes (t5.take 1)
    IpmiInterruptNum := fromBytes (t6.take 1)
    IpmiUid := fromBytes (t7.take 4)
    IpmiDeviceInfoToken := fromBytes (t8.take W) }

def decodeContainedCmObject (W : Nat) (bs : List Nat) :
    CONTAINED_CM_OBJECTS :=
  { CmObjToken := fromBytes (bs.take W)
    GeneratorId := decodeSmbiosGid (fromBytes ((bs.drop W).take 4)) }

def decodeBaseboardInfo (W : Nat) (bs : List Nat) :
    CM_STD_BASEBOARD_INFO :=
  let t1 := bs.drop W
  let t2 := t1.drop W
  let t3 := t2.drop W
  let t4 := t3.drop W
  let t5 := t4.drop W
  let t6 := t5.drop W
  let t7 := t6.drop W
  let t8 := t7.drop 1
  let t9 := t8.drop W
  let t10 := t9.drop 1
  let t11 := t10.drop 1
  { BaseboardInfoToken := fromBytes (bs.take W)
    ChassisToken := fromBytes (t1.take W)
    Manufacturer := fromBytes (t2.take W)
    ProductName := fromBytes (t3.take W)
    Version := fromBytes (t4.take W)
    SerialNumber := fromBytes (t5.take W)
    AssetTag := fromBytes (t6.take W)
    FeatureFlag := fromBytes (t7.take 1)
    LocationInChassis := fromBytes (t8.take W)
    BoardType := fromBytes (t9.take 1)
    NumberOfContainedObjectHandles := fromBytes (t10.take 1)
    ContainedCmObjects := [decodeContainedCmObject W t11] }

def decodePeerGroup (bs : List Nat) : MISC_SLOT_PEER_GROUP :=
  { SegmentGroupNum := fromBytes (bs.take 2)
    BusNum := fromBytes ((bs.drop 2).take 1)
    DevFuncNum := fromBytes (((bs.drop 2).drop 1).take 1)
    DataBusWidth := fromBytes ((((bs.drop 2).drop 1).drop 1).take 1) }

def decodeSystemSlotInfo (W : Nat) (bs : List Nat) :
    CM_STD_SYSTEM_SLOTS_INFO :=
  let t1 := bs.drop W
  let t2 := t1.drop W
  let t3 := t2.drop 1
  let t4 := t3.drop 1
  let t5 := t4.drop 1
  let t6 := t5.drop 1
  let t7 := t6.drop 2
  let t8 := t7.drop 1
  let t9 := t8.drop 1
  let t10 := t9.drop 2
  let t11 := t10.drop 1
  let t12 := t11.drop 1
  let t13 := t12.drop 1
  let t14 := t13.drop 1
  let t15 := t14.drop 1
  let t16 := t15.drop 2
  let t17 := t16.drop 1
  let t18 := t17.drop 1
  { SystemSlotInfoToken := fromBytes (bs.take W)
    SlotDesignation := fromBytes (t1.take W)
    SlotType := fromBytes (t2.take 1)
    SlotDataBusWidth := fromBytes (t3.take 1)
    CurrentUsage := fromBytes (t4.take 1)
    SlotLength := fromBytes (t5.take 1)
    SlotID := fromBytes (t6.take 2)
    SlotCharacteristics1 := fromBytes (t7.take 1)
    SlotCharacteristics2 := fromBytes (t8.take 1)
    SegmentGroupNum := fromBytes (t9.take 2)
    BusNum := fromBytes (t10.take 1)
    DevFuncNum := fromBytes (t11.take 1)
    DataBusWidth := fromBytes (t12.take 1)
    SlotInformation := fromBytes (t13.take 1)
    SlotPhysicalWidth := fromBytes (t14.take 1)
    SlotPitch := fromBytes (t15.take 2)
    SlotHeight := fromBytes (t16.take 1)
    PeerGroupingCount := fromBytes (t17.take 1)
    PeerGroups :=
      [decodePeerGroup t18, decodePeerGroup (t18.drop 5),
       decodePeerGroup ((t18.drop 5).drop 5),
       decodePeerGroup (((t18.drop 5).drop 5).drop 5),
       decodePeerGroup ((((t18.drop 5).drop 5).drop 5).drop 5)] }

/-! ## Error taxonomy and construction-time validation -/

/-- Error taxonomy of the object model (spec §7): `InvalidId`,
`InvalidToken`, `NotFound`, `CapacityExceeded`. -/
inductive CM_ERROR where
  | NotFound
  | InvalidToken
  | InvalidId
  | CapacityExceeded
  deriving DecidableEq, Repr

/-- Modelled from the spec: all-or-nothing construction of a baseboard
record (the shown material declares only the record layout, not the
constructor).  A count exceeding the storage ceiling of the trailing
`ContainedCmObjects[1]` array is a construction-time `CapacityExceeded`
error and no partially-populated record is produced. -/
def mkBaseboardInfo (baseboardInfoToken chassisToken manufacturer
    productName version serialNumber assetTag featureFlag
    locationInChassis boardType numberOfContainedObjectHandles : Nat)
    (containedCmObjects : List CONTAINED_CM_OBJECTS) :
    Except CM_ERROR CM_STD_BASEBOARD_INFO :=
  if numberOfContainedObjectHandles ≤ baseboardContainedObjectsCapacity
  then
    Except.ok
      { BaseboardInfoToken := baseboardInfoToken
        ChassisToken := chassisToken
        Manufacturer := manufacturer
        ProductName := productName
        Version := version
        SerialNumber := serialNumber
        AssetTag := assetTag
        FeatureFlag := featureFlag
        LocationInChassis := locationInChassis
        BoardType := boardType
        NumberOfContainedObjectHandles := numberOfContainedObjectHandles
        ContainedCmObjects := containedCmObjects }
  else Except.error CM_ERROR.CapacityExceeded

/-- Modelled from the spec: all-or-nothing construction of a system-slot
record; a peer-grouping count exceeding `MAX_SLOT_PEER_GROUP` is a
construction-time `CapacityExceeded` error. -/
def mkSystemSlotInfo (systemSlotInfoToken slotDesignation slotType
    slotDataBusWidth currentUsage slotLength slotId slotCharacteristics1
    slotCharacteristics2 segmentGroupNum busNum devFuncNum dataBusWidth
    slotInformation slotPhysicalWidth slotPitch slotHeight
    peerGroupingCount : Nat) (peerGroups : List MISC_SLOT_PEER_GROUP) :
    Except CM_ERROR CM_STD_SYSTEM_SLOTS_INFO :=
  if peerGroupingCount ≤ MAX_SLOT_PEER_GROUP then
    Except.ok
      { SystemSlotInfoToken := systemSlotInfoToken
        SlotDesignation := slotDesignation
        SlotType := slotType
        SlotDataBusWidth := slotDataBusWidth
        CurrentUsage := currentUsage
        SlotLength := slotLength
        SlotID := slotId
        SlotCharacteristics1 := slotCharacteristics1
        SlotCharacteristics2 := slotCharacteristics2
        SegmentGroupNum := segmentGroupNum
        BusNum := busNum
        DevFuncNum := devFuncNum
        DataBusWidth := dataBusWidth
        SlotInformation := slotInformation
        SlotPhysicalWidth := slotPhysicalWidth
        SlotPitch := slotPitch
        SlotHeight := slotHeight
        PeerGroupingCount := peerGroupingCount
        PeerGroups := peerGroups }
  else Except.error CM_ERROR.CapacityExceeded

/-! ## The authority's token registry -/

/-- A Configuration Manager object instance: one of the record types of
the Standard Namespace. -/
inductive CM_OBJECT_RECORD where
  | cfgMgrInfo : CM_STD_OBJ_CONFIGURATION_MANAGER_INFO → CM_OBJECT_RECORD
  | acpiTableInfo : CM_STD_OBJ_ACPI_TABLE_INFO → CM_OBJECT_RECORD
  | smbiosTableInfo : CM_STD_OBJ_SMBIOS_TABLE_INFO → CM_OBJECT_RECORD
  | ipmiDeviceInfo : CM_STD_IPMI_DEVICE_INFO → CM_OBJECT_RECORD
  | baseboardInfo : CM_STD_BASEBOARD_INFO → CM_OBJECT_RECORD
  | systemSlotInfo : CM_STD_SYSTEM_SLOTS_INFO → CM_OBJECT_RECORD
  deriving DecidableEq

/-- Modelled from the spec: the producing authority's object store — the
instances it has published, addressed by token, plus the next token to
hand out (the identification scheme is implementation defined; tokens
start above the reserved null token). -/
structure AuthorityState where
  nextToken : Nat
  objects : List (CM_OBJECT_TOKEN × CM_OBJECT_RECORD)
  deriving DecidableEq

abbrev AuthorityState.WF (s : AuthorityState) : Prop :=
  1 ≤ s.nextToken

def initialAuthorityState : AuthorityState :=
  { nextToken := 1, objects := [] }

/-- Modelled from the spec: instance creation — a fresh non-null token is
assigned to the new object instance. -/
def createInstance (s : AuthorityState) (r : CM_OBJECT_RECORD) :
    AuthorityState × CM_OBJECT_TOKEN :=
  ({ nextToken := s.nextToken + 1, objects := (s.nextToken, r) :: s.objects },
   s.nextToken)

/-- Modelled from the spec: `ResolveToken` — exact match on the token or
a `NotFound` signal; the null token yields `NotFound` by definition,
never an error of another kind. -/
def resolveToken (s : AuthorityState) (t : CM_OBJECT_TOKEN) :
    Except CM_ERROR CM_OBJECT_RECORD :=
  if t = CM_NULL_TOKEN then Except.error CM_ERROR.NotFound
  else
    match s.objects.lookup t with
    | some r => Except.ok r
    | none => Except.error CM_ERROR.NotFound

/-! ## Default resolution of the optional OEM override fields -/

/-- Modelled from the spec: when a Table-Request's `OemTableId` is zero,
the generator derives it from part of the Configuration-Manager
`OemId` and the ACPI table signature (header note on `OemTableId`). -/
def deriveOemTableId (oemId : List Nat) (tableSignature : Nat) : Nat :=
  fromBytes (oemId.take 4) + 2 ^ 32 * tableSignature

/-- Modelled from the spec: two-level default resolution of the OEM table
ID — a zero value means "derive from Configuration-Manager Metadata". -/
def resolvedOemTableId (t : CM_STD_OBJ_ACPI_TABLE_INFO)
    (m : CM_STD_OBJ_CONFIGURATION_MANAGER_INFO) : Nat :=
  if t.OemTableId = 0 then deriveOemTableId m.OemId t.AcpiTableSignature
  else t.OemTableId

/-- Modelled from the spec: two-level default resolution of the OEM
revision — a zero value means "use the Configuration-Manager
revision". -/
def resolvedOemRevision (t : CM_STD_OBJ_ACPI_TABLE_INFO)
    (m : CM_STD_OBJ_CONFIGURATION_MANAGER_INFO) : Nat :=
  if t.OemRevision = 0 then m.Revision else t.OemRevision

/-- The 6-byte OEM identifier "OEMXYZ", as ASCII bytes. -/
def oemIdXYZ : List Nat := [0x4F, 0x45, 0x4D, 0x58, 0x59, 0x5A]

/-! ## Sample records (concrete instances used as witnesses) -/

def cfgSample : CM_STD_OBJ_CONFIGURATION_MANAGER_INFO :=
  { Revision := 0x20231100, OemId := oemIdXYZ }

def acpiTableSample : CM_STD_OBJ_ACPI_TABLE_INFO :=
  { AcpiTableSignature := 0x50434146, AcpiTableRevision := 6
    TableGeneratorId := ⟨2⟩, AcpiTableData := 0, OemTableId := 0
    OemRevision := 0, MinorRevision := 4 }

def smbiosTableSample : CM_STD_OBJ_SMBIOS_TABLE_INFO :=
  { TableGeneratorId := ⟨3⟩, SmbiosTableData := 0 }

def ipmiDeviceSample : CM_STD_IPMI_DEVICE_INFO :=
  { IpmiIntfType := 1, IpmiSpecRevision := 0x20
    IpmiI2CSlaveAddress := 0x20, IpmiNVStorageDevAddress := 0
    IpmiBaseAddress := 0xCA2, IpmiBaseAddModIntInfo := 0
    IpmiInterruptNum := 0, IpmiUid := 7, IpmiDeviceInfoToken := 0x1000 }

def containedSample : CONTAINED_CM_OBJECTS :=
  { CmObjToken := 0x2000, GeneratorId := ⟨5⟩ }

def baseboardSample : CM_STD_BASEBOARD_INFO :=
  { BaseboardInfoToken := 0x2001, ChassisToken := 0x2002
    Manufacturer := 0x80000000, ProductName := 0x80000010
    Version := 0x80000020, SerialNumber := 0x80000030
    AssetTag := 0x80000040, FeatureFlag := 1
    LocationInChassis := 0x80000050, BoardType := 0x0A
    NumberOfContainedObjectHandles := 1
    ContainedCmObjects := [containedSample] }

def peerGroupSample : MISC_SLOT_PEER_GROUP :=
  { SegmentGroupNum := 0, BusNum := 1, DevFuncNum := 8, DataBusWidth := 16 }

def systemSlotSample : CM_STD_SYSTEM_SLOTS_INFO :=
  { SystemSlotInfoToken := 0x3001, SlotDesignation := 0x80000060
    SlotType := 0xA5, SlotDataBusWidth := 0x0D, CurrentUsage := 4
    SlotLength := 4, SlotID := 1, SlotCharacteristics1 := 0x0C
    SlotCharacteristics2 := 1, SegmentGroupNum := 0, BusNum := 1
    DevFuncNum := 0x10, DataBusWidth := 16, SlotInformation := 0
    SlotPhysicalWidth := 16, SlotPitch := 1016, SlotHeight := 3
    PeerGroupingCount := 5
    PeerGroups := [peerGroupSample, peerGroupSample, peerGroupSample,
                   peerGroupSample, peerGroupSample] }

/-! ## Byte-serialization lemmas -/

theorem toBytes_length (w n : Nat) : (toBytes w n).length = w := by
  induction w generalizing n with
  | zero => rfl
  | succ w ih => simp [toBytes, ih]

theorem fromBytes_toBytes (w n : Nat) (h : n < 256 ^ w) :
    fromBytes (toBytes w n) = n := by
  induction w generalizing n with
  | zero =>
    simp [toBytes, fromBytes]
    omega
  | succ w ih =>
    have hdiv : n / 256 < 256 ^ w := by
      rw [Nat.div_lt_iff_lt_mul (by norm_num)]
      calc n < 256 ^ (w + 1) := h
        _ = 256 ^ w * 256 := by ring
    simp [toBytes, fromBytes, ih _ hdiv]
    omega

theorem take_toBytes_append (w n : Nat) (l : List Nat) :
    (toBytes w n ++ l).take w = toBytes w n := by
  rw [List.take_append_of_le_length (by simp [toBytes_length])]
  exact List.take_of_length_le (by simp [toBytes_length])

theorem drop_toBytes_append (w n : Nat) (l : List Nat) :
    (toBytes w n ++ l).drop w = l := by
  rw [List.drop_append_of_le_length (by simp [toBytes_length])]
  simp [toBytes_length]

theorem take_toBytes (w n : Nat) : (toBytes w n).take w = toBytes w n :=
  List.take_of_length_le (by simp [toBytes_length])

/-! ## Round-trip lemmas, per component -/

theorem decodeAcpiGid_encode (g : ACPI_TABLE_GENERATOR_ID)
    (h : g.TableId < 2 ^ 28) :
    decodeAcpiGid (fromBytes (toBytes 4 (encodeAcpiGid g))) = g := by
  obtain ⟨t⟩ := g
  simp only [encodeAcpiGid, TABLE_TYPE.toNat] at *
  rw [fromBytes_toBytes 4 _ (by norm_num; omega)]
  simp only [decodeAcpiGid, ACPI_TABLE_GENERATOR_ID.mk.injEq]
  omega

theorem decodeSmbiosGid_encode (g : SMBIOS_TABLE_GENERATOR_ID)
    (h : g.TableId < 2 ^ 28) :
    decodeSmbiosGid (fromBytes (toBytes 4 (encodeSmbiosGid g))) = g := by
  obtain ⟨t⟩ := g
  simp only [encodeSmbiosGid, TABLE_TYPE.toNat] at *
  rw [fromBytes_toBytes 4 _ (by norm_num; omega)]
  simp only [decodeSmbiosGid, SMBIOS_TABLE_GENERATOR_ID.mk.injEq]
  omega

theorem decode_encodeCfgMgrInfo (r : CM_STD_OBJ_CONFIGURATION_MANAGER_INFO)
    (h : r.WF) : decodeCfgMgrInfo (encodeCfgMgrInfo r) = r := by
  obtain ⟨rev, oem⟩ := r
  obtain ⟨h1, h2, h3⟩ := h
  simp only [CM_STD_OBJ_CONFIGURATION_MANAGER_INFO.OemId] at h2
  simp [decodeCfgMgrInfo, encodeCfgMgrInfo, drop_toBytes_append,
        take_toBytes_append, fromBytes_toBytes 4 _ h1,
        List.take_of_length_le (le_of_eq h2)]

theorem decode_encodeSmbiosTableInfo (W : Nat)
    (r : CM_STD_OBJ_SMBIOS_TABLE_INFO) (h : r.WF W) :
    decodeSmbiosTableInfo W (encodeSmbiosTableInfo W r) = r := by
  obtain ⟨gid, dat⟩ := r
  obtain ⟨h1, h2⟩ := h
  simp [decodeSmbiosTableInfo, encodeSmbiosTableInfo, drop_toBytes_append,
        take_toBytes_append, take_toBytes, fromBytes_toBytes W _ h2,
        decodeSmbiosGid_encode _ h1]

theorem decode_encodeAcpiTableInfo (W : Nat)
    (r : CM_STD_OBJ_ACPI_TABLE_INFO) (h : r.WF W) :
    decodeAcpiTableInfo W (encodeAcpiTableInfo W r) = r := by
  obtain ⟨sig, rev, gid, dat, oemTid, oemRev, minRev⟩ := r
  obtain ⟨h1, h2, h3, h4, h5, h6, h7⟩ := h
  simp only [decodeAcpiTableInfo, encodeAcpiTableInfo, List.append_assoc,
        drop_toBytes_append, take_toBytes_append, take_toBytes,
        fromBytes_toBytes 4 _ h1, fromBytes_toBytes 1 _ h2,
        decodeAcpiGid_encode _ h3, fromBytes_toBytes W _ h4,
        fromBytes_toBytes 8 _ h5, fromBytes_toBytes 4 _ h6,
        fromBytes_toBytes 1 _ h7, CM_STD_OBJ_ACPI_TABLE_INFO.mk.injEq,
        and_self]

theorem decode_encodeIpmiDeviceInfo (W : Nat)
    (r : CM_STD_IPMI_DEVICE_INFO) (h : r.WF W) :
    decodeIpmiDeviceInfo W (encodeIpmiDeviceInfo W r) = r := by
  obtain ⟨f1, f2, f3, f4, f5, f6, f7, f8, f9⟩ := r
  obtain ⟨h1, h2, h3, h4, h5, h6, h7, h8, h9⟩ := h
  simp only [decodeIpmiDeviceInfo, encodeIpmiDeviceInfo, List.append_assoc,
        drop_toBytes_append, take_toBytes_append, take_toBytes,
        fromBytes_toBytes 1 _ h1, fromBytes_toBytes 1 _ h2,
        fromBytes_toBytes 1 _ h3, fromBytes_toBytes 1 _ h4,
        fromBytes_toBytes 8 _ h5, fromBytes_toBytes 1 _ h6,
        fromBytes_toBytes 1 _ h7, fromBytes_toBytes 4 _ h8,
        fromBytes_toBytes W _ h9, CM_STD_IPMI_DEVICE_INFO.mk.injEq,
        and_self]

theorem decode_encodeContainedCmObject (W : Nat) (c : CONTAINED_CM_OBJECTS)
    (h : c.WF W) :
    decodeContainedCmObject W (encodeContainedCmObject W c) = c := by
  obtain ⟨tok, gid⟩ := c
  obtain ⟨h1, h2⟩ := h
  simp [decodeContainedCmObject, encodeContainedCmObject,
        drop_toBytes_append, take_toBytes_append, take_toBytes,
        fromBytes_toBytes W _ h1, decodeSmbiosGid_encode _ h2]

theorem encodePeerGroup_length (p : MISC_SLOT_PEER_GROUP) :
    (encodePeerGroup p).length = 5 := by
  simp [encodePeerGroup, toBytes_length]

theorem drop_encodePeerGroup_append (p : MISC_SLOT_PEER_GROUP)
    (l : List Nat) : (encodePeerGroup p ++ l).drop 5 = l := by
  rw [List.drop_append_of_le_length (by simp [encodePeerGroup_length])]
  simp [encodePeerGroup_length]

theorem decodePeerGroup_encode_append (p : MISC_SLOT_PEER_GROUP)
    (l : List Nat) (h : p.WF) :
    decodePeerGroup (encodePeerGroup p ++ l) = p := by
  obtain ⟨a, b, c, d⟩ := p
  obtain ⟨h1, h2, h3, h4⟩ := h
  simp only [decodePeerGroup, encodePeerGroup, List.append_assoc,
        drop_toBytes_append, take_toBytes_append, take_toBytes,
        fromBytes_toBytes 2 _ h1, fromBytes_toBytes 1 _ h2,
        fromBytes_toBytes 1 _ h3, fromBytes_toBytes 1 _ h4,
        MISC_SLOT_PEER_GROUP.mk.injEq, and_self]

theorem decodePeerGroup_encode (p : MISC_SLOT_PEER_GROUP) (h : p.WF) :
    decodePeerGroup (encodePeerGroup p) = p := by
  have := decodePeerGroup_encode_append p [] h
  simpa using this

theorem list_length_five_destruct {α : Type} (l : List α)
    (h : l.length = 5) : ∃ a b c d e, l = [a, b, c, d, e] := by
  rcases l with _ | ⟨a, l⟩
  · simp at h
  rcases l with _ | ⟨b, l⟩
  · simp at h
  rcases l with _ | ⟨c, l⟩
  · simp at h
  rcases l with _ | ⟨d, l⟩
  · simp at h
  rcases l with _ | ⟨e, l⟩
  · simp at h
  rcases l with _ | ⟨f, l⟩
  · exact ⟨a, b, c, d, e, rfl⟩
  · simp at h

theorem decode_encodeBaseboardInfo (W : Nat) (r : CM_STD_BASEBOARD_INFO)
    (h : r.WF W) : decodeBaseboardInfo W (encodeBaseboardInfo W r) = r := by
  obtain ⟨b1, b2, b3, b4, b5, b6, b7, b8, b9, b10, b11, cs⟩ := r
  obtain ⟨h1, h2, h3, h4, h5, h6, h7, h8, h9, h10, h11, hlen, hwf⟩ := h
  have hlen1 : cs.length = 1 := hlen
  obtain ⟨c, rfl⟩ := List.length_eq_one.mp hlen1
  have hc : c.WF W := hwf c (by simp)
  simp only [decodeBaseboardInfo, encodeBaseboardInfo, List.map_cons,
        List.map_nil, List.flatten_cons, List.flatten_nil, List.append_nil,
        List.append_assoc, drop_toBytes_append, take_toBytes_append,
        take_toBytes, fromBytes_toBytes W _ h1, fromBytes_toBytes W _ h2,
        fromBytes_toBytes W _ h3, fromBytes_toBytes W _ h4,
        fromBytes_toBytes W _ h5, fromBytes_toBytes W _ h6,
        fromBytes_toBytes W _ h7, fromBytes_toBytes 1 _ h8,
        fromBytes_toBytes W _ h9, fromBytes_toBytes 1 _ h10,
        fromBytes_toBytes 1 _ h11,
        decode_encodeContainedCmObject W c hc,
        CM_STD_BASEBOARD_INFO.mk.injEq, and_self]

theorem decode_encodeSystemSlotInfo (W : Nat)
    (r : CM_STD_SYSTEM_SLOTS_INFO) (h : r.WF W) :
    decodeSystemSlotInfo W (encodeSystemSlotInfo W r) = r := by
  obtain ⟨s1, s2, s3, s4, s5, s6, s7, s8, s9, s10, s11, s12, s13, s14,
    s15, s16, s17, s18, ps⟩ := r
  obtain ⟨h1, h2, h3, h4, h5, h6, h7, h8, h9, h10, h11, h12, h13, h14,
    h15, h16, h17, h18, hlen, hwf⟩ := h
  have hlen5 : ps.length = 5 := hlen
  obtain ⟨p0, p1, p2, p3, p4, rfl⟩ := list_length_five_destruct ps hlen5
  have hp0 : p0.WF := hwf p0 (by simp)
  have hp1 : p1.WF := hwf p1 (by simp)
  have hp2 : p2.WF := hwf p2 (by simp)
  have hp3 : p3.WF := hwf p3 (by simp)
  have hp4 : p4.WF := hwf p4 (by simp)
  simp only [decodeSystemSlotInfo, encodeSystemSlotInfo, List.map_cons,
        List.map_nil, List.flatten_cons, List.flatten_nil, List.append_nil,
        List.append_assoc, drop_toBytes_append, take_toBytes_append,
        take_toBytes, drop_encodePeerGroup_append,
        fromBytes_toBytes W _ h1, fromBytes_toBytes W _ h2,
        fromBytes_toBytes 1 _ h3, fromBytes_toBytes 1 _ h4,
        fromBytes_toBytes 1 _ h5, fromBytes_toBytes 1 _ h6,
        fromBytes_toBytes 2 _ h7, fromBytes_toBytes 1 _ h8,
        fromBytes_toBytes 1 _ h9, fromBytes_toBytes 2 _ h10,
        fromBytes_toBytes 1 _ h11, fromBytes_toBytes 1 _ h12,
        fromBytes_toBytes 1 _ h13, fromBytes_toBytes 1 _ h14,
        fromBytes_toBytes 1 _ h15, fromBytes_toBytes 2 _ h16,
        fromBytes_toBytes 1 _ h17, fromBytes_toBytes 1 _ h18,
        decodePeerGroup_encode_append p0 _ hp0,
        decodePeerGroup_encode_append p1 _ hp1,
        decodePeerGroup_encode_append p2 _ hp2,
        decodePeerGroup_encode_append p3 _ hp3,
        decodePeerGroup_encode p4 hp4,
        CM_STD_SYSTEM_SLOTS_INFO.mk.injEq, and_self]

end CmObjectModel

namespace CmObjectModel

/-- C3: in the Standard Namespace enumeration, the declared Object ID
values are exactly `0, 1, ..., EStdObjMax - 1` (dense, monotone from
zero, hence unique), ID `0` is the valid type tag `EStdObjCfgMgrInfo`,
every declared ID is strictly below `EStdObjMax`, and `EStdObjMax` is
not itself a declared concrete ID. -/
theorem std_namespace_object_id_invariants :
    stdDeclaredObjectIds.map ESTD_OBJECT_ID.toNat
        = List.range ESTD_OBJECT_ID.EStdObjMax.toNat
      ∧ (stdDeclaredObjectIds.map ESTD_OBJECT_ID.toNat).Nodup
      ∧ (∀ i ∈ stdDeclaredObjectIds,
          i.toNat < ESTD_OBJECT_ID.EStdObjMax.toNat)
      ∧ ESTD_OBJECT_ID.EStdObjMax ∉ stdDeclaredObjectIds
      ∧ ESTD_OBJECT_ID.EStdObjCfgMgrInfo ∈ stdDeclaredObjectIds
      ∧ ESTD_OBJECT_ID.EStdObjCfgMgrInfo.toNat = 0 := by
  decide

/-- C8: the Standard Namespace declares exactly six concrete Object IDs,
numbered 0 = Configuration Manager Info, 1 = ACPI table list, 2 = SMBIOS
table list, 3 = IPMI device info, 4 = baseboard info, 5 = system slot
info, and `EStdObjMax` equals 6. -/
theorem std_namespace_six_object_ids :
    stdDeclaredObjectIds.length = 6
      ∧ ESTD_OBJECT_ID.EStdObjCfgMgrInfo.toNat = 0
      ∧ ESTD_OBJECT_ID.EStdObjAcpiTableList.toNat = 1
      ∧ ESTD_OBJECT_ID.EStdObjSmbiosTableList.toNat = 2
      ∧ ESTD_OBJECT_ID.EStdObjIpmiDeviceInfo.toNat = 3
      ∧ ESTD_OBJECT_ID.EStdObjBaseboardInfo.toNat = 4
      ∧ ESTD_OBJECT_ID.EStdObjSystemSlotInfo.toNat = 5
      ∧ ESTD_OBJECT_ID.EStdObjMax.toNat = 6 := by
  decide

theorem encodeContainedCmObject_length (W : Nat)
    (c : CONTAINED_CM_OBJECTS) :
    (encodeContainedCmObject W c).length = W + 4 := by
  simp [encodeContainedCmObject, toBytes_length]

theorem flatten_map_encodeContained_length (W : Nat)
    (cs : List CONTAINED_CM_OBJECTS) :
    ((cs.map (encodeContainedCmObject W)).flatten).length
      = cs.length * (W + 4) := by
  induction cs with
  | nil => simp
  | cons c cs ih =>
    simp [ih, encodeContainedCmObject_length]
    ring

theorem flatten_map_encodePeerGroup_length
    (ps : List MISC_SLOT_PEER_GROUP) :
    ((ps.map encodePeerGroup).flatten).length = ps.length * 5 := by
  induction ps with
  | nil => simp
  | cons p ps ih =>
    simp [ih, encodePeerGroup_length]
    ring

/-- C5: every record type is byte-packed — its encoding is the
concatenation of its fields' bytes in declaration order, so its byte
size is exactly the sum of the declared field widths — and decoding the
packed bytes recovers the record field for field, for every defined
record type (`W` is the token/pointer word width in bytes). -/
theorem packed_layout_roundtrip :
    (∀ r : CM_STD_OBJ_CONFIGURATION_MANAGER_INFO, r.WF →
        decodeCfgMgrInfo (encodeCfgMgrInfo r) = r
          ∧ (encodeCfgMgrInfo r).length = 10)
      ∧ (∀ (W : Nat) (r : CM_STD_OBJ_ACPI_TABLE_INFO), r.WF W →
        decodeAcpiTableInfo W (encodeAcpiTableInfo W r) = r
          ∧ (encodeAcpiTableInfo W r).length = 22 + W)
      ∧ (∀ (W : Nat) (r : CM_STD_OBJ_SMBIOS_TABLE_INFO), r.WF W →
        decodeSmbiosTableInfo W (encodeSmbiosTableInfo W r) = r
          ∧ (encodeSmbiosTableInfo W r).length = 4 + W)
      ∧ (∀ (W : Nat) (r : CM_STD_IPMI_DEVICE_INFO), r.WF W →
        decodeIpmiDeviceInfo W (encodeIpmiDeviceInfo W r) = r
          ∧ (encodeIpmiDeviceInfo W r).length = 18 + W)
      ∧ (∀ (W : Nat) (r : CM_STD_BASEBOARD_INFO), r.WF W →
        decodeBaseboardInfo W (encodeBaseboardInfo W r) = r
          ∧ (encodeBaseboardInfo W r).length = 9 * W + 7)
      ∧ (∀ (W : Nat) (r : CM_STD_SYSTEM_SLOTS_INFO), r.WF W →
        decodeSystemSlotInfo W (encodeSystemSlotInfo W r) = r
          ∧ (encodeSystemSlotInfo W r).length = 2 * W + 44) := by
  refine ⟨fun r h => ⟨decode_encodeCfgMgrInfo r h, ?_⟩,
    fun W r h => ⟨decode_encodeAcpiTableInfo W r h, ?_⟩,
    fun W r h => ⟨decode_encodeSmbiosTableInfo W r h, ?_⟩,
    fun W r h => ⟨decode_encodeIpmiDeviceInfo W r h, ?_⟩,
    fun W r h => ⟨decode_encodeBaseboardInfo W r h, ?_⟩,
    fun W r h => ⟨decode_encodeSystemSlotInfo W r h, ?_⟩⟩
  · simp only [encodeCfgMgrInfo, List.length_append, toBytes_length, h.2.1]
  · simp only [encodeAcpiTableInfo, List.length_append, toBytes_length]
    omega
  · simp only [encodeSmbiosTableInfo, List.length_append, toBytes_length]
  · simp only [encodeIpmiDeviceInfo, List.length_append, toBytes_length]
  · have hlen : r.ContainedCmObjects.length = 1 := h.2.2.2.2.2.2.2.2.2.2.2.1
    simp only [encodeBaseboardInfo, List.length_append, toBytes_length,
          flatten_map_encodeContained_length, hlen]
    omega
  · have hlen : r.PeerGroups.length = 5 := h.2.2.2.2.2.2.2.2.2.2.2.2.2.2.2.2.2.2.1
    simp only [encodeSystemSlotInfo, List.length_append, toBytes_length,
          flatten_map_encodePeerGroup_length, hlen]
    omega

/-- Witness for C5: the round trip evaluated on concrete records at the
64-bit word width. -/
theorem packed_layout_roundtrip_witness :
    decodeCfgMgrInfo (encodeCfgMgrInfo cfgSample) = cfgSample
      ∧ decodeAcpiTableInfo 8 (encodeAcpiTableInfo 8 acpiTableSample)
          = acpiTableSample
      ∧ decodeSmbiosTableInfo 8 (encodeSmbiosTableInfo 8 smbiosTableSample)
          = smbiosTableSample
      ∧ decodeIpmiDeviceInfo 8 (encodeIpmiDeviceInfo 8 ipmiDeviceSample)
          = ipmiDeviceSample
      ∧ decodeBaseboardInfo 8 (encodeBaseboardInfo 8 baseboardSample)
          = baseboardSample
      ∧ decodeSystemSlotInfo 8 (encodeSystemSlotInfo 8 systemSlotSample)
          = systemSlotSample :=
  ⟨(packed_layout_roundtrip.1 cfgSample (by decide)).1,
   (packed_layout_roundtrip.2.1 8 acpiTableSample (by decide)).1,
   (packed_layout_roundtrip.2.2.1 8 smbiosTableSample (by decide)).1,
   (packed_layout_roundtrip.2.2.2.1 8 ipmiDeviceSample (by decide)).1,
   (packed_layout_roundtrip.2.2.2.2.1 8 baseboardSample (by decide)).1,
   (packed_layout_roundtrip.2.2.2.2.2 8 systemSlotSample (by decide)).1⟩

/-- C7: the Configuration-Manager Metadata record consists of exactly a
32-bit revision followed by the 6-byte OEM identifier, in that order:
its packed layout is 10 bytes, bytes 0..3 hold `Revision` and bytes 4..9
are `OemId`. -/
theorem cfg_mgr_info_layout :
    ∀ r : CM_STD_OBJ_CONFIGURATION_MANAGER_INFO, r.WF →
      (encodeCfgMgrInfo r).length = 10
        ∧ (encodeCfgMgrInfo r).take 4 = toBytes 4 r.Revision
        ∧ fromBytes ((encodeCfgMgrInfo r).take 4) = r.Revision
        ∧ (encodeCfgMgrInfo r).drop 4 = r.OemId := by
  intro r h
  obtain ⟨h1, h2, h3⟩ := h
  refine ⟨?_, ?_, ?_, ?_⟩ <;>
    simp [encodeCfgMgrInfo, toBytes_length, h2, take_toBytes_append,
          drop_toBytes_append, fromBytes_toBytes 4 _ h1]

/-- Witness for C7, on a concrete metadata record. -/
theorem cfg_mgr_info_layout_witness :
    (encodeCfgMgrInfo cfgSample).length = 10
      ∧ (encodeCfgMgrInfo cfgSample).take 4 = toBytes 4 cfgSample.Revision
      ∧ fromBytes ((encodeCfgMgrInfo cfgSample).take 4) = cfgSample.Revision
      ∧ (encodeCfgMgrInfo cfgSample).drop 4 = cfgSample.OemId :=
  cfg_mgr_info_layout cfgSample (by decide)

/-- C2: the token value 0 (`CM_NULL_TOKEN`) is reserved as the null
token: instance creation never assigns or returns it (and preserves the
registry invariant), and resolving the null token always yields
`NotFound` — by definition, never any other error. -/
theorem null_token_policy :
    (∀ (s : AuthorityState) (r : CM_OBJECT_RECORD), s.WF →
        (createInstance s r).2 ≠ CM_NULL_TOKEN
          ∧ (createInstance s r).1.WF)
      ∧ (∀ s : AuthorityState,
        resolveToken s CM_NULL_TOKEN = Except.error CM_ERROR.NotFound)
      ∧ initialAuthorityState.WF := by
  refine ⟨fun s r h => ⟨?_, ?_⟩, fun s => ?_, ?_⟩
  · have h1 : 1 ≤ s.nextToken := h
    show s.nextToken ≠ 0
    omega
  · have h1 : 1 ≤ s.nextToken := h
    show 1 ≤ s.nextToken + 1
    omega
  · simp [resolveToken]
  · decide

/-- Witness for C2: creating an instance in the initial registry state
hands out a non-null token, and resolving the null token there yields
`NotFound`. -/
theorem null_token_policy_witness :
    ((createInstance initialAuthorityState
        (CM_OBJECT_RECORD.cfgMgrInfo cfgSample)).2 ≠ CM_NULL_TOKEN)
      ∧ resolveToken initialAuthorityState CM_NULL_TOKEN
          = Except.error CM_ERROR.NotFound :=
  ⟨(null_token_policy.1 initialAuthorityState
      (CM_OBJECT_RECORD.cfgMgrInfo cfgSample) (by decide)).1,
   null_token_policy.2.1 initialAuthorityState⟩

/-- C4: a Table-Request record with `OemTableId = 0` and
`OemRevision = 0`, combined with Configuration-Manager Metadata with
revision `R` and OEM ID "OEMXYZ", resolves to the metadata-derived
defaults — the OEM table ID built from the metadata OEM ID plus the
table signature (never literal zero), and the OEM revision `R`. -/
theorem oem_default_resolution :
    ∀ (t : CM_STD_OBJ_ACPI_TABLE_INFO)
      (m : CM_STD_OBJ_CONFIGURATION_MANAGER_INFO),
      t.OemTableId = 0 → t.OemRevision = 0 → m.OemId = oemIdXYZ →
        resolvedOemRevision t m = m.Revision
          ∧ resolvedOemTableId t m
              = deriveOemTableId oemIdXYZ t.AcpiTableSignature
          ∧ resolvedOemTableId t m ≠ 0 := by
  intro t m h1 h2 h3
  refine ⟨?_, ?_, ?_⟩
  · simp [resolvedOemRevision, h2]
  · simp [resolvedOemTableId, h1, h3]
  · simp only [resolvedOemTableId, h1, h3, if_pos, deriveOemTableId,
      oemIdXYZ, List.take_succ_cons, List.take_zero, fromBytes]
    intro hc
    omega

/-- Witness for C4, on a concrete Table-Request record (a FACP request
with zero OEM overrides) and concrete metadata. -/
theorem oem_default_resolution_witness :
    resolvedOemRevision acpiTableSample cfgSample = cfgSample.Revision
      ∧ resolvedOemTableId acpiTableSample cfgSample
          = deriveOemTableId oemIdXYZ acpiTableSample.AcpiTableSignature
      ∧ resolvedOemTableId acpiTableSample cfgSample ≠ 0 :=
  oem_default_resolution acpiTableSample cfgSample (by decide) (by decide)
    (by decide)

/-- C9: the contained-object reference held by a baseboard pairs its
object token with an SMBIOS table-generator ID: the `GeneratorId`
field's type is the SMBIOS generator-ID type, and its numeric form
always carries the SMBIOS table-type tag, never the ACPI one — so a
baseboard's contained-object edges can only designate SMBIOS-generated
objects. -/
theorem contained_objects_pair_smbios_generator :
    ∀ c : CONTAINED_CM_OBJECTS, c.GeneratorId.TableId < 2 ^ 28 →
      c.GeneratorId.tableType = TABLE_TYPE.smbios
        ∧ gidTableType (encodeSmbiosGid c.GeneratorId) = TABLE_TYPE.smbios
        ∧ gidTableType (encodeSmbiosGid c.GeneratorId) ≠ TABLE_TYPE.acpi := by
  intro c h
  refine ⟨rfl, ?_, ?_⟩ <;>
    · simp [gidTableType, encodeSmbiosGid, TABLE_TYPE.toNat]
      omega

/-- Witness for C9, on a concrete contained-object reference. -/
theorem contained_objects_pair_smbios_generator_witness :
    containedSample.GeneratorId.tableType = TABLE_TYPE.smbios
      ∧ gidTableType (encodeSmbiosGid containedSample.GeneratorId)
          = TABLE_TYPE.smbios
      ∧ gidTableType (encodeSmbiosGid containedSample.GeneratorId)
          ≠ TABLE_TYPE.acpi :=
  contained_objects_pair_smbios_generator containedSample (by decide)

/-- C10: `CM_OBJECT_TOKEN` is the platform's native unsigned word, so a
token or pointer field occupies exactly `W` bytes and the packed byte
size of every token-bearing record is a function of the word width —
22 vs 26 bytes (IPMI device), 43 vs 79 (baseboard), 52 vs 60 (system
slot) at `W = 4` vs `W = 8` — so the byte layout is stable only for a
fixed word width. -/
theorem token_width_dependent_layout :
    (∀ (W : Nat) (t : CM_OBJECT_TOKEN), (toBytes W t).length = W)
      ∧ (∀ (W : Nat) (r : CM_STD_IPMI_DEVICE_INFO),
        (encodeIpmiDeviceInfo W r).length = 18 + W)
      ∧ (∀ (W : Nat) (r : CM_STD_BASEBOARD_INFO),
        r.ContainedCmObjects.length = baseboardContainedObjectsCapacity →
          (encodeBaseboardInfo W r).length = 9 * W + 7)
      ∧ (∀ (W : Nat) (r : CM_STD_SYSTEM_SLOTS_INFO),
        r.PeerGroups.length = MAX_SLOT_PEER_GROUP →
          (encodeSystemSlotInfo W r).length = 2 * W + 44)
      ∧ (∀ r : CM_STD_IPMI_DEVICE_INFO,
        encodeIpmiDeviceInfo 4 r ≠ encodeIpmiDeviceInfo 8 r) := by
  have hipmi : ∀ (W : Nat) (r : CM_STD_IPMI_DEVICE_INFO),
      (encodeIpmiDeviceInfo W r).length = 18 + W := by
    intro W r
    simp only [encodeIpmiDeviceInfo, List.length_append, toBytes_length]
  refine ⟨fun W t => toBytes_length W t, hipmi, ?_, ?_, ?_⟩
  · intro W r hlen
    simp only [encodeBaseboardInfo, List.length_append, toBytes_length,
      flatten_map_encodeContained_length, hlen,
      baseboardContainedObjectsCapacity]
    omega
  · intro W r hlen
    simp only [encodeSystemSlotInfo, List.length_append, toBytes_length,
      flatten_map_encodePeerGroup_length, hlen, MAX_SLOT_PEER_GROUP]
    omega
  · intro r heq
    have h4 := hipmi 4 r
    have h8 := hipmi 8 r
    rw [heq] at h4
    omega

/-- Witness for C10: the packed sizes of concrete token-bearing records
at the 32-bit and 64-bit word widths. -/
theorem token_width_dependent_layout_witness :
    (encodeIpmiDeviceInfo 4 ipmiDeviceSample).length = 22
      ∧ (encodeIpmiDeviceInfo 8 ipmiDeviceSample).length = 26
      ∧ (encodeBaseboardInfo 4 baseboardSample).length = 43
      ∧ (encodeBaseboardInfo 8 baseboardSample).length = 79
      ∧ (encodeSystemSlotInfo 4 systemSlotSample).length = 52
      ∧ (encodeSystemSlotInfo 8 systemSlotSample).length = 60 :=
  ⟨token_width_dependent_layout.2.1 4 ipmiDeviceSample,
   token_width_dependent_layout.2.1 8 ipmiDeviceSample,
   token_width_dependent_layout.2.2.1 4 baseboardSample (by decide),
   token_width_dependent_layout.2.2.1 8 baseboardSample (by decide),
   token_width_dependent_layout.2.2.2.1 4 systemSlotSample (by decide),
   token_width_dependent_layout.2.2.2.1 8 systemSlotSample (by decide)⟩

/-- C1: for the variable-length aggregate records (the baseboard's
`ContainedCmObjects`, the system slot's `PeerGroups`) construction
enforces `count ≤ capacity`: any successfully constructed record has its
count within the array capacity; a count above the capacity fails with
`CapacityExceeded` — the `Except` error carries no record, so nothing
partially-populated is produced; and in particular a baseboard with
`NumberOfContainedObjectHandles = 2` against the capacity-1
`ContainedCmObjects` array fails with `CapacityExceeded`. -/
theorem aggregate_capacity_enforced :
    (∀ (a1 a2 a3 a4 a5 a6 a7 a8 a9 a10 n : Nat)
        (cs : List CONTAINED_CM_OBJECTS) (rec : CM_STD_BASEBOARD_INFO),
        mkBaseboardInfo a1 a2 a3 a4 a5 a6 a7 a8 a9 a10 n cs
            = Except.ok rec →
          rec.NumberOfContainedObjectHandles
            ≤ baseboardContainedObjectsCapacity)
      ∧ (∀ (a1 a2 a3 a4 a5 a6 a7 a8 a9 a10 n : Nat)
        (cs : List CONTAINED_CM_OBJECTS),
        baseboardContainedObjectsCapacity < n →
          mkBaseboardInfo a1 a2 a3 a4 a5 a6 a7 a8 a9 a10 n cs
            = Except.error CM_ERROR.CapacityExceeded)
      ∧ (∀ (a1 a2 a3 a4 a5 a6 a7 a8 a9 a10 a11 a12 a13 a14 a15 a16 a17
          n : Nat) (ps : List MISC_SLOT_PEER_GROUP)
          (rec : CM_STD_SYSTEM_SLOTS_INFO),
        mkSystemSlotInfo a1 a2 a3 a4 a5 a6 a7 a8 a9 a10 a11 a12 a13 a14
            a15 a16 a17 n ps = Except.ok rec →
          rec.PeerGroupingCount ≤ MAX_SLOT_PEER_GROUP)
      ∧ (∀ (a1 a2 a3 a4 a5 a6 a7 a8 a9 a10 a11 a12 a13 a14 a15 a16 a17
          n : Nat) (ps : List MISC_SLOT_PEER_GROUP),
        MAX_SLOT_PEER_GROUP < n →
          mkSystemSlotInfo a1 a2 a3 a4 a5 a6 a7 a8 a9 a10 a11 a12 a13 a14
            a15 a16 a17 n ps = Except.error CM_ERROR.CapacityExceeded)
      ∧ (∀ (a1 a2 a3 a4 a5 a6 a7 a8 a9 a10 : Nat)
        (cs : List CONTAINED_CM_OBJECTS),
        mkBaseboardInfo a1 a2 a3 a4 a5 a6 a7 a8 a9 a10 2 cs
          = Except.error CM_ERROR.CapacityExceeded) := by
  refine ⟨?_, ?_, ?_, ?_, ?_⟩
  · intro a1 a2 a3 a4 a5 a6 a7 a8 a9 a10 n cs rec hok
    by_cases hc : n ≤ baseboardContainedObjectsCapacity
    · simp only [mkBaseboardInfo, if_pos hc, Except.ok.injEq] at hok
      subst hok
      simpa using hc
    · simp only [mkBaseboardInfo, if_neg hc] at hok
      simp at hok
  · intro a1 a2 a3 a4 a5 a6 a7 a8 a9 a10 n cs h
    have hc : ¬ n ≤ baseboardContainedObjectsCapacity := by omega
    simp only [mkBaseboardInfo, if_neg hc]
  · intro a1 a2 a3 a4 a5 a6 a7 a8 a9 a10 a11 a12 a13 a14 a15 a16 a17
      n ps rec hok
    by_cases hc : n ≤ MAX_SLOT_PEER_GROUP
    · simp only [mkSystemSlotInfo, if_pos hc, Except.ok.injEq] at hok
      subst hok
      simpa using hc
    · simp only [mkSystemSlotInfo, if_neg hc] at hok
      simp at hok
  · intro a1 a2 a3 a4 a5 a6 a7 a8 a9 a10 a11 a12 a13 a14 a15 a16 a17
      n ps h
    have hc : ¬ n ≤ MAX_SLOT_PEER_GROUP := by omega
    simp only [mkSystemSlotInfo, if_neg hc]
  · intro a1 a2 a3 a4 a5 a6 a7 a8 a9 a10 cs
    rfl

/-- Witness for C1: the concrete failing constructions — a baseboard
with count 2 against capacity 1, and a system slot with count 6 against
capacity 5. -/
theorem aggregate_capacity_enforced_witness :
    mkBaseboardInfo 0 0 0 0 0 0 0 0 0 0 2 []
        = Except.error CM_ERROR.CapacityExceeded
      ∧ mkSystemSlotInfo 0 0 0 0 0 0 0 0 0 0 0 0 0 0 0 0 0 6 []
          = Except.error CM_ERROR.CapacityExceeded :=
  ⟨aggregate_capacity_enforced.2.1 0 0 0 0 0 0 0 0 0 0 2 [] (by decide),
   aggregate_capacity_enforced.2.2.2.1 0 0 0 0 0 0 0 0 0 0 0 0 0 0 0 0 0
     6 [] (by decide)⟩

/-- C6: constructing a system-slot record with `PeerGroupingCount = 5`
(equal to the `MAX_SLOT_PEER_GROUP` bound of 5) succeeds, while
`PeerGroupingCount = 6` fails with `CapacityExceeded`. -/
theorem slot_peer_group_boundary :
    (∀ (a1 a2 a3 a4 a5 a6 a7 a8 a9 a10 a11 a12 a13 a14 a15 a16 a17 : Nat)
        (ps : List MISC_SLOT_PEER_GROUP),
        ∃ rec, mkSystemSlotInfo a1 a2 a3 a4 a5 a6 a7 a8 a9 a10 a11 a12
            a13 a14 a15 a16 a17 5 ps = Except.ok rec
          ∧ rec.PeerGroupingCount = 5)
      ∧ (∀ (a1 a2 a3 a4 a5 a6 a7 a8 a9 a10 a11 a12 a13 a14 a15 a16
          a17 : Nat) (ps : List MISC_SLOT_PEER_GROUP),
        mkSystemSlotInfo a1 a2 a3 a4 a5 a6 a7 a8 a9 a10 a11 a12 a13 a14
          a15 a16 a17 6 ps = Except.error CM_ERROR.CapacityExceeded) := by
  constructor
  · intro a1 a2 a3 a4 a5 a6 a7 a8 a9 a10 a11 a12 a13 a14 a15 a16 a17 ps
    exact ⟨_, rfl, rfl⟩
  · intro a1 a2 a3 a4 a5 a6 a7 a8 a9 a10 a11 a12 a13 a14 a15 a16 a17 ps
    rfl

end CmObjectModel
